import Mathlib

/-!
Verification development for the smart-sales-lead-analyst repository.

Python strings are modelled as `List Char` (`PyStr`): Python's `len`,
slicing and `in` operate on characters, which `List Char` matches exactly
(the UTF-8 byte view of Lean's `String` would not).  Pure Python functions
become Lean functions; calls into external libraries (hashlib's MD5 digest,
the `random.Random` generator, the Chroma vector store, the filesystem) are
modelled as explicit parameters or explicit state, so that all data flow of
the source is visible in the embedding.
-/

/-- Python `str` as a character sequence. -/
abbrev PyStr := List Char

/-- Coerce a Lean string literal into the `PyStr` model. -/
def pystr (s : String) : PyStr := s.toList

/-- Python `str.lower()` (ASCII case mapping, which covers every string the
program manipulates). -/
def pyLower (s : PyStr) : PyStr := s.map Char.toLower

/-- The characters Python's `str.strip()` and the regex class `\s` treat as
whitespace (ASCII part). -/
def pyIsSpace (c : Char) : Bool :=
  c = ' ' || c = '\t' || c = '\n' || c = '\r' || c = '\x0b' || c = '\x0c'

/-- Python `str.strip()`: drop whitespace from both ends. -/
def pyStrip (s : PyStr) : PyStr :=
  ((s.dropWhile pyIsSpace).reverse.dropWhile pyIsSpace).reverse

/-- Python `str.strip(chars)`: drop the given characters from both ends. -/
def pyStripChars (cs : List Char) (s : PyStr) : PyStr :=
  ((s.dropWhile (cs.contains ·)).reverse.dropWhile (cs.contains ·)).reverse

/-- Python `sep.join(xs)`. -/
def pyJoin (sep : PyStr) : List PyStr → PyStr
  | [] => []
  | [x] => x
  | x :: xs => x ++ sep ++ pyJoin sep xs

/-- Python slicing `s[a:b]` (with `0 ≤ a ≤ b` as used in the source). -/
def pySlice (s : PyStr) (a b : Nat) : PyStr := (s.take b).drop a

/-- Python `int(...)` applied to a string of decimal digits (the only use in
the source: regex captures of `\d+`). -/
def pyInt (s : PyStr) : Nat := s.foldl (fun a c => a * 10 + (c.toNat - '0'.toNat)) 0

/-- Decimal rendering of a natural, as Python `str(n)` / f-string formatting. -/
def natToStr (n : Nat) : PyStr := (Nat.repr n).toList

/-- Substring test, Python's `needle in hay` on strings (contiguous
occurrence). -/
def pyContains (hay needle : PyStr) : Bool :=
  needle.isPrefixOf hay ||
    match hay with
    | [] => false
    | _ :: rest => pyContains rest needle

/-! ## A backtracking regex engine

The source compiles a handful of fixed `re` patterns.  We embed them over a
small regex AST whose matcher enumerates, in Python's backtracking
preference order, every way a pattern can match a prefix of the input:
greedy pieces yield longer matches first, lazy pieces shorter ones first,
alternation is left-biased.  The head of the enumeration is therefore
exactly the match Python's engine returns.  Repetition is only ever applied
to single-character classes in the source's patterns, which the AST reflects. -/

/-- Regex AST covering the constructs used by the source's patterns. -/
inductive RE where
  /-- a single character from a class -/
  | cls (p : Char → Bool)
  /-- a literal run of characters, optionally case-insensitive -/
  | lit (s : List Char) (ci : Bool)
  /-- concatenation -/
  | cat (a b : RE)
  /-- ordered alternation, left preferred -/
  | alt (a b : RE)
  /-- greedy `?` -/
  | opt (a : RE)
  /-- greedy `*` over a character class -/
  | starG (p : Char → Bool)
  /-- greedy `+` over a character class -/
  | plusG (p : Char → Bool)
  /-- lazy `+?` over a character class -/
  | plusL (p : Char → Bool)
  /-- numbered capture group -/
  | grp (n : Nat) (a : RE)

/-- Character comparison, optionally case-insensitive (Python `re.IGNORECASE`). -/
def charMatches (ci : Bool) (a c : Char) : Bool :=
  if ci then a.toLower = c.toLower else a = c

/-- Literal-run prefix test. -/
def litMatch (ci : Bool) : List Char → List Char → Bool
  | [], _ => true
  | _ :: _, [] => false
  | a :: as, c :: cs => charMatches ci a c && litMatch ci as cs

/-- Length of the maximal leading run of characters satisfying `p`. -/
def countLeading (p : Char → Bool) : List Char → Nat
  | [] => 0
  | c :: cs => if p c then countLeading p cs + 1 else 0

/-- Captures recorded during a match: group number paired with captured text. -/
abbrev Caps := List (Nat × List Char)

/-- All prefix matches of a regex against the input, as (consumed length,
captures), in Python's backtracking preference order. -/
def reRun : RE → List Char → List (Nat × Caps)
  | .cls p, s =>
      match s with
      | [] => []
      | c :: _ => if p c then [(1, [])] else []
  | .lit l ci, s => if litMatch ci l s then [(l.length, [])] else []
  | .cat a b, s =>
      (reRun a s).flatMap fun x =>
        (reRun b (s.drop x.1)).map fun y => (x.1 + y.1, x.2 ++ y.2)
  | .alt a b, s => reRun a s ++ reRun b s
  | .opt a, s => reRun a s ++ [(0, [])]
  | .starG p, s =>
      (List.range (countLeading p s + 1)).map fun k => (countLeading p s - k, [])
  | .plusG p, s =>
      (List.range (countLeading p s)).map fun k => (countLeading p s - k, [])
  | .plusL p, s =>
      (List.range (countLeading p s)).map fun k => (k + 1, [])
  | .grp n a, s => (reRun a s).map fun x => (x.1, x.2 ++ [(n, s.take x.1)])

/-- The match Python's engine produces at the current position, if any. -/
def matchAt (r : RE) (s : List Char) : Option (Nat × Caps) := (reRun r s).head?

/-- One match found by `finditer`: start and end offsets plus captures. -/
structure RMatch where
  start : Nat
  stop : Nat
  caps : Caps
deriving DecidableEq

/-- Python `match.group(n)`. -/
def capGet (caps : Caps) (n : Nat) : Option (List Char) :=
  (caps.find? (fun x => x.1 = n)).map (·.2)

/-- Scanner behind `re.finditer`: leftmost non-overlapping matches.  The fuel
starts at `s.length + 1`, enough for the scan position to traverse the whole
input. -/
def findIterAux (r : RE) (s : List Char) : Nat → Nat → List RMatch
  | _, 0 => []
  | i, fuel + 1 =>
      if i > s.length then []
      else
        match matchAt r (s.drop i) with
        | some x => ⟨i, i + x.1, x.2⟩ :: findIterAux r s (i + max x.1 1) fuel
        | none => findIterAux r s (i + 1) fuel

/-- Python `re.finditer(pattern, s)` as a list of matches. -/
def finditer (r : RE) (s : List Char) : List RMatch :=
  findIterAux r s 0 (s.length + 1)

/-- Python `re.search(pattern, s)`: the leftmost match. -/
def reSearch (r : RE) (s : List Char) : Option RMatch := (finditer r s).head?

/-- Offsets of line starts, the positions `^` matches under `re.MULTILINE`. -/
def lineStarts (s : List Char) : List Nat :=
  (List.range (s.length + 1)).filter fun i =>
    i = 0 || decide (s.drop (i - 1) ≠ [] ∧ (s.drop (i - 1)).head? = some '\n')

/-- `re.search` for a pattern anchored at `^` under `re.MULTILINE`: the
leftmost line-start position at which the rest of the pattern matches. -/
def reSearchLineStart (r : RE) (s : List Char) : Option RMatch :=
  (lineStarts s).findSome? fun i =>
    (matchAt r (s.drop i)).map fun x => ⟨i, i + x.1, x.2⟩

/-! ## linkedin_tool.py -/

/-- Source `JOB_TITLES` pool. -/
def JOB_TITLES : List PyStr :=
  [pystr "VP of Sales", pystr "Head of Operations", pystr "Chief Revenue Officer",
   pystr "Director of Procurement", pystr "IT Manager", pystr "CEO", pystr "COO",
   pystr "Senior Buyer", pystr "Business Development Manager", pystr "CFO",
   pystr "Director of Strategy", pystr "Founder", pystr "Managing Director"]

/-- Source `INDUSTRIES` pool. -/
def INDUSTRIES : List PyStr :=
  [pystr "SaaS", pystr "Manufacturing", pystr "Healthcare", pystr "Finance",
   pystr "Retail", pystr "Logistics", pystr "Education", pystr "Real Estate"]

/-- Source `COMPANY_SIZES` pool. -/
def COMPANY_SIZES : List PyStr :=
  [pystr "1-10", pystr "11-50", pystr "51-200", pystr "201-500",
   pystr "501-1000", pystr "1000+"]

/-- Source `DECISION_MAKER_TITLES` keyword set (a Python set; order is
irrelevant to the `any` that consumes it). -/
def DECISION_MAKER_TITLES : List PyStr :=
  [pystr "vp", pystr "chief", pystr "cro", pystr "ceo", pystr "coo", pystr "cfo",
   pystr "director", pystr "founder", pystr "head", pystr "managing"]

/-- The `random.Random` library generator, abstracted: an implementation
carries its state type, seeding, and the two primitives the source calls.
`choiceIdx st n` models the index `random.Random.choice` picks from a
sequence of length `n`; `randraw st a b` models the draw behind
`randint(a, b)`.  Any concrete CPython behaviour is one such implementation. -/
structure PyRandom where
  RState : Type
  init : Nat → RState
  choiceIdx : RState → Nat → Nat × RState
  randraw : RState → Nat → Nat → Nat × RState

/-- `rng.choice(l)`: the element at the implementation's index.  CPython
guarantees the index is below `l.length`; reducing modulo the length (the
identity on every such index) keeps the model total. -/
def pyChoice (l : List PyStr) (i : Nat) : PyStr := l.getD (i % l.length) []

/-- `rng.randint(a, b)`: clamp the implementation's raw draw into `[a, b]`,
the range CPython guarantees (the clamp is the identity on it). -/
def pyRandint (a b raw : Nat) : Nat := a + raw % (b + 1 - a)

/-- Source `_seed_from_name`: stable integer seed from a name.  `md5int`
abstracts `int(hashlib.md5(x.encode()).hexdigest(), 16)`, a pure function of
its input string. -/
def _seed_from_name (md5int : PyStr → Nat) (name : PyStr) : Nat :=
  md5int (pyLower name) % 10000

/-- Source `_is_decision_maker`: any keyword occurs in the lowercased title. -/
def _is_decision_maker (title : PyStr) : Bool :=
  DECISION_MAKER_TITLES.any fun word => pyContains (pyLower title) word

/-- The seniority ladder of `lookup_linkedin_profile` (source lines 66-74),
as a function of the chosen title. -/
def seniorityOf (title : PyStr) : PyStr :=
  if [pystr "chief", pystr "ceo", pystr "coo", pystr "cro", pystr "cfo",
      pystr "founder"].any (fun w => pyContains (pyLower title) w) then
    pystr "C-Suite"
  else if [pystr "vp", pystr "vice president", pystr "director", pystr "head",
      pystr "managing"].any (fun w => pyContains (pyLower title) w) then
    pystr "Senior Leadership"
  else if [pystr "manager", pystr "senior"].any
      (fun w => pyContains (pyLower title) w) then
    pystr "Mid-Level Management"
  else
    pystr "Individual Contributor"

/-- The profile dictionary returned by `lookup_linkedin_profile`. -/
structure LinkedInProfile where
  lead_name : PyStr
  job_title : PyStr
  industry : PyStr
  company_size : PyStr
  seniority : PyStr
  years_in_role : Nat
  connections : Nat
  decision_maker : PyStr
  source : PyStr
deriving DecidableEq

/-- Source `lookup_linkedin_profile`: seed from the name, then five draws
from a generator seeded with it, in source order. -/
def lookup_linkedin_profile (md5int : PyStr → Nat) (R : PyRandom)
    (lead_name : PyStr) : LinkedInProfile :=
  let seed := _seed_from_name md5int lead_name
  let st0 := R.init seed
  let d1 := R.choiceIdx st0 JOB_TITLES.length
  let title := pyChoice JOB_TITLES d1.1
  let d2 := R.choiceIdx d1.2 COMPANY_SIZES.length
  let company_size := pyChoice COMPANY_SIZES d2.1
  let d3 := R.choiceIdx d2.2 INDUSTRIES.length
  let industry := pyChoice INDUSTRIES d3.1
  let d4 := R.randraw d3.2 1 12
  let years_in_role := pyRandint 1 12 d4.1
  let d5 := R.randraw d4.2 200 4000
  let connections := pyRandint 200 4000 d5.1
  { lead_name := lead_name
    job_title := title
    industry := industry
    company_size := company_size
    seniority := seniorityOf title
    years_in_role := years_in_role
    connections := connections
    decision_maker := if _is_decision_maker title then pystr "Yes" else pystr "No"
    source := pystr "LinkedIn (simulated)" }

/-- Source `format_linkedin_result`: render the profile for the LLM. -/
def format_linkedin_result (p : LinkedInProfile) : PyStr :=
  pystr "LinkedIn Profile for " ++ p.lead_name ++ pystr ":\n" ++
  pystr "  Job Title: " ++ p.job_title ++ pystr "\n" ++
  pystr "  Seniority: " ++ p.seniority ++ pystr "\n" ++
  pystr "  Industry: " ++ p.industry ++ pystr "\n" ++
  pystr "  Company Size: " ++ p.company_size ++ pystr " employees\n" ++
  pystr "  Years in Role: " ++ natToStr p.years_in_role ++ pystr "\n" ++
  pystr "  Decision Maker: " ++ p.decision_maker ++ pystr "\n" ++
  pystr "  LinkedIn Connections: " ++ natToStr p.connections ++ pystr "\n"

/-! ## utils.py -/

/-- The primary pattern of `parse_lead_scores` (compiled with
`re.IGNORECASE`, under which `[A-Z]` matches any ASCII letter):
`(\d+)[.)]\s*(?:\*\*)?([A-Z][^\n*]+?)(?:\*\*)?\s*[-–]\s*(?:Score|Confidence)[:\s]*(\d+)`. -/
def primaryRE : RE :=
  .cat (.grp 1 (.plusG Char.isDigit))
  (.cat (.cls fun c => c = '.' || c = ')')
  (.cat (.starG pyIsSpace)
  (.cat (.opt (.lit (pystr "**") false))
  (.cat (.grp 2 (.cat (.cls Char.isAlpha) (.plusL fun c => !(c = '\n' || c = '*'))))
  (.cat (.opt (.lit (pystr "**") false))
  (.cat (.starG pyIsSpace)
  (.cat (.cls fun c => c = '-' || c = '–')
  (.cat (.starG pyIsSpace)
  (.cat (.alt (.lit (pystr "Score") true) (.lit (pystr "Confidence") true))
  (.cat (.starG fun c => c = ':' || pyIsSpace c)
  (.grp 3 (.plusG Char.isDigit))))))))))))

/-- The fallback pattern of `parse_lead_scores` (no IGNORECASE; the
`re.MULTILINE` flag only affects `^`/`$`, which the pattern does not use):
`(\d+)[.)]\s*([A-Z][A-Za-z\s]+?)[:–\-]`. -/
def fallbackRE : RE :=
  .cat (.grp 1 (.plusG Char.isDigit))
  (.cat (.cls fun c => c = '.' || c = ')')
  (.cat (.starG pyIsSpace)
  (.cat (.grp 2 (.cat (.cls Char.isUpper) (.plusL fun c => c.isAlpha || pyIsSpace c)))
  (.cls fun c => c = ':' || c = '–' || c = '-'))))

/-- The bullet pattern of the reasoning clean-up: `[-•*]\s*(.+)` (`.` does
not match a newline). -/
def bulletRE : RE :=
  .cat (.cls fun c => c = '-' || c = '•' || c = '*')
  (.cat (.starG pyIsSpace)
  (.grp 1 (.plusG fun c => c ≠ '\n')))

/-- The clamp `min(max(score, 0), 100)` of source line 68. -/
def pyClamp (score : Int) : Int := min (max score 0) 100

/-- One parsed entry of `parse_lead_scores`. -/
structure LeadScore where
  rank : Nat
  name : PyStr
  score : Int
  reasoning : List PyStr
  raw : PyStr
deriving DecidableEq

/-- The loop body of `parse_lead_scores`: each match paired with the text up
to the next match (or end of input).  `isPrimary` records which pattern
produced the matches; the primary pattern has three groups, the fallback
two, which is what `len(match.groups()) >= 3` tests. -/
def buildLeads (s : PyStr) (isPrimary : Bool) : List RMatch → List LeadScore
  | [] => []
  | m :: rest =>
      let rank := pyInt ((capGet m.caps 1).getD [])
      let name := pyStrip ((capGet m.caps 2).getD [])
      let score : Int :=
        if isPrimary then (pyInt ((capGet m.caps 3).getD []) : Int) else 70
      let endPos := match rest with | [] => s.length | m2 :: _ => m2.start
      let block := pyStrip (pySlice s m.stop endPos)
      let bullets := (finditer bulletRE block).map fun bm => (capGet bm.caps 1).getD []
      let reasoning :=
        if bullets.isEmpty then
          (((List.splitOn '.' block).map pyStrip).filter fun t => 20 < t.length).take 4
        else bullets
      { rank := rank, name := name, score := pyClamp score,
        reasoning := reasoning, raw := block } :: buildLeads s isPrimary rest

/-- Source `parse_lead_scores`: primary matches, else fallback matches, then
the per-match extraction loop. -/
def parse_lead_scores (agent_output : PyStr) : List LeadScore :=
  let prim := finditer primaryRE agent_output
  if prim.isEmpty then
    buildLeads agent_output false (finditer fallbackRE agent_output)
  else
    buildLeads agent_output true prim

/-- A retrieved LangChain `Document`: page content plus the metadata keys the
program writes and reads (absent keys modelled as `none`). -/
structure Doc where
  page_content : PyStr
  metaLead : Option PyStr
  metaSource : Option PyStr
  metaChunkId : Option PyStr
deriving DecidableEq

/-- `grouped.setdefault(lead, []).append(chunk)`: append under an existing
key, else add the key at the end (dict insertion order). -/
def groupInsert (acc : List (PyStr × List PyStr)) (k : PyStr) (v : PyStr) :
    List (PyStr × List PyStr) :=
  match acc with
  | [] => [(k, [v])]
  | g :: rest =>
      if g.1 = k then (g.1, g.2 ++ [v]) :: rest else g :: groupInsert rest k v

/-- Source `format_context_for_prompt`: group chunks by lead name, render a
header per lead followed by its chunks, and join with newlines. -/
def format_context_for_prompt (docs : List Doc) : PyStr :=
  let grouped := docs.foldl
    (fun acc d => groupInsert acc (d.metaLead.getD (pystr "Unknown"))
      (pyStrip d.page_content)) []
  let lines := grouped.flatMap fun g =>
    (pystr "\n=== Lead: " ++ g.1 ++ pystr " ===") :: g.2
  pyJoin (pystr "\n") lines

/-! ## agent.py tool functions

The tool bodies call external collaborators (the Chroma store behind
`get_vectorstore`/`similarity_search`, and the enrichment callee).  Those
calls are modelled as `Except`-valued inputs: `.error` is a raised Python
exception, `.ok` a normal return.  A tool that catches exceptions has total
`PyStr` output; one that does not returns `Except`, the uncaught exception
propagating to its caller. -/

/-- The "no relevant data" string of `vector_search_tool_fn`. -/
def noDataSentinel : PyStr := pystr "No relevant transcript data found."

/-- Source `vector_search_tool_fn`: the whole body sits in `try/except`, so
any exception from the retrieval collaborator becomes the observation string
`"Vector search failed: <message>"`; an empty result list becomes the
sentinel; otherwise the formatted context is returned. -/
def vector_search_tool_fn (retrieval : Except PyStr (List Doc)) : PyStr :=
  match retrieval with
  | .error e => pystr "Vector search failed: " ++ e
  | .ok docs => if docs.isEmpty then noDataSentinel else format_context_for_prompt docs

/-- Source `linkedin_search_tool_fn`: strip whitespace and quotes,
short-circuit on an empty name, then call the enrichment callee and format
its profile.  There is no `try/except` in this body: an exception from the
callee (`lookupImpl` returning `.error`) propagates out of the tool. -/
def linkedin_search_tool_fn (lookupImpl : PyStr → Except PyStr LinkedInProfile)
    (lead_name : PyStr) : Except PyStr PyStr :=
  let n := pyStripChars ['\''] (pyStripChars ['"'] (pyStrip lead_name))
  if n.isEmpty then .ok (pystr "Please provide a lead name to search.")
  else (lookupImpl n).map format_linkedin_result

/-! ## ingest.py and vectorstore.py -/

/-- Source `CHUNK_SIZE`. -/
def CHUNK_SIZE : Nat := 500

/-- Source `CHUNK_OVERLAP`. -/
def CHUNK_OVERLAP : Nat := 100

/-- Does the separator end exactly at offset `p` of the text? -/
def sepCutAt (cs : List Char) (sep : List Char) (p : Nat) : Bool :=
  p ≤ cs.length && sep.isSuffixOf (cs.take p)

/-- The candidate cut offsets for one separator: offsets in
`(CHUNK_OVERLAP, CHUNK_SIZE]` where the separator ends; the largest is
preferred (chunks target the fixed size). -/
def cutFor (cs sep : List Char) : Option Nat :=
  (((List.range' (CHUNK_OVERLAP + 1) (CHUNK_SIZE - CHUNK_OVERLAP)).filter
    (sepCutAt cs sep)).getLast?)

/-- Modelled from the spec: the recursive-boundary cut position of the text
splitter (`RecursiveCharacterTextSplitter`, external library code not in the
repository).  Separators are tried in the spec's priority order — paragraph
break, line break, sentence break, space — and the raw-character cut at
`CHUNK_SIZE` is the last resort. -/
def splitPointRaw (cs : List Char) : Nat :=
  match cutFor cs (pystr "\n\n") with
  | some p => p
  | none =>
    match cutFor cs (pystr "\n") with
    | some p => p
    | none =>
      match cutFor cs (pystr ". ") with
      | some p => p
      | none =>
        match cutFor cs (pystr " ") with
        | some p => p
        | none => CHUNK_SIZE

/-- The cut position clamped into `(CHUNK_OVERLAP, CHUNK_SIZE]` (every
candidate already lies there; the clamp keeps the bound syntactically
evident).  A cut must exceed the overlap so that successive chunks advance. -/
def splitPoint (cs : List Char) : Nat :=
  min CHUNK_SIZE (max (CHUNK_OVERLAP + 1) (splitPointRaw cs))

/-- Modelled from the spec: split text into overlapping chunks — each chunk
a contiguous window of at most `CHUNK_SIZE` characters cut at the best
boundary, consecutive windows sharing `CHUNK_OVERLAP` characters.  The fuel
argument makes the recursion structural (hence computable by the kernel);
each recursive step shortens the text, so fuel `cs.length` never runs out. -/
def mkChunksF : Nat → List Char → List (List Char)
  | 0, cs => [cs]
  | fuel + 1, cs =>
      if cs.length ≤ CHUNK_SIZE then [cs]
      else
        cs.take (splitPoint cs) ::
          mkChunksF fuel (cs.drop (splitPoint cs - CHUNK_OVERLAP))

/-- The chunker applied with adequate fuel. -/
def mkChunks (cs : List Char) : List (List Char) := mkChunksF cs.length cs

/-- `splitter.split_text` of `chunk_documents`. -/
def split_text (text : PyStr) : List PyStr := mkChunks text

/-- Concatenation of chunk texts with the overlapping portion removed from
every chunk after the first (the spec's reconstruction of the original). -/
def reconstructOverlap : List PyStr → PyStr
  | [] => []
  | c :: rest => c ++ (rest.map (List.drop CHUNK_OVERLAP)).flatten

/-- The two-token capitalized name group `([A-Z][a-z]+ [A-Z][a-z]+)` shared
by the three lead-name patterns. -/
def namePairRE : RE :=
  .grp 1 (.cat (.cls Char.isUpper)
    (.cat (.plusG Char.isLower)
    (.cat (.cls fun c => c = ' ')
    (.cat (.cls Char.isUpper) (.plusG Char.isLower)))))

/-- Pattern 1 of `extract_lead_name`:
`(?:Lead|Client|Customer|Prospect)\s*[:\-]\s*([A-Z][a-z]+ [A-Z][a-z]+)`. -/
def leadPat1 : RE :=
  .cat (.alt (.lit (pystr "Lead") false)
        (.alt (.lit (pystr "Client") false)
        (.alt (.lit (pystr "Customer") false) (.lit (pystr "Prospect") false))))
  (.cat (.starG pyIsSpace)
  (.cat (.cls fun c => c = ':' || c = '-')
  (.cat (.starG pyIsSpace) namePairRE)))

/-- Pattern 2 of `extract_lead_name`:
`(?:speaking with|call with|meeting with)\s+([A-Z][a-z]+ [A-Z][a-z]+)`. -/
def leadPat2 : RE :=
  .cat (.alt (.lit (pystr "speaking with") false)
        (.alt (.lit (pystr "call with") false) (.lit (pystr "meeting with") false)))
  (.cat (.plusG pyIsSpace) namePairRE)

/-- Pattern 3 of `extract_lead_name`: `^([A-Z][a-z]+ [A-Z][a-z]+)\s*[:\-]`,
whose `^` is a line anchor under `re.MULTILINE`. -/
def leadPat3 : RE :=
  .cat namePairRE (.cat (.starG pyIsSpace) (.cls fun c => c = ':' || c = '-'))

/-- Offset of the last `'.'` in a filename, if any. -/
def lastDotIdx (n : PyStr) : Option Nat :=
  ((List.range n.length).filter fun i => n.getD i ' ' = '.').getLast?

/-- `pathlib.Path(filename).stem`: the name without its final suffix; a
leading-dot-only or trailing-dot name keeps its text (CPython's
`0 < i < len(name) - 1` rule). -/
def pyStem (n : PyStr) : PyStr :=
  match lastDotIdx n with
  | some i => if 0 < i ∧ i < n.length - 1 then n.take i else n
  | none => n

/-- Python `str.title()` (ASCII): a cased character is uppercased when the
previous character is not cased, lowercased otherwise. -/
def pyTitleAux : Bool → List Char → List Char
  | _, [] => []
  | prevAlpha, c :: cs =>
      (if c.isAlpha then (if prevAlpha then c.toLower else c.toUpper) else c) ::
        pyTitleAux c.isAlpha cs

/-- Python `str.title()` on the whole string. -/
def pyTitle (s : PyStr) : PyStr := pyTitleAux false s

/-- Source `extract_lead_name`: first matching pattern over the first 2000
characters wins, else the title-cased filename stem with `_`/`-` turned into
spaces. -/
def extract_lead_name (text filename : PyStr) : PyStr :=
  let t := text.take 2000
  match reSearch leadPat1 t with
  | some m => pyStrip ((capGet m.caps 1).getD [])
  | none =>
    match reSearch leadPat2 t with
    | some m => pyStrip ((capGet m.caps 1).getD [])
    | none =>
      match reSearchLineStart leadPat3 t with
      | some m => pyStrip ((capGet m.caps 1).getD [])
      | none =>
        pyTitle ((pyStem filename).map fun c => if c = '_' || c = '-' then ' ' else c)

/-- The two error classes `load_pdfs` raises. -/
inductive IngestError where
  | fileNotFound (msg : PyStr)
  | valueError (msg : PyStr)
deriving DecidableEq

/-- The filesystem, abstracted: a directory path maps to its listing of
(filename, extracted text) pairs when the directory exists — PDF text
extraction (`PyPDFLoader`) is the external collaborator producing the text. -/
abbrev FileSys := PyStr → Option (List (PyStr × PyStr))

/-- Eligibility under the `*.pdf` glob of `load_pdfs`. -/
def isPdfName (n : PyStr) : Bool := List.isSuffixOf (pystr ".pdf") n

/-- Source `load_pdfs`: `FileNotFoundError` on a missing directory,
`ValueError` on a directory with no `*.pdf` files, else the
(filename, full text, lead name) triples. -/
def load_pdfs (fs : FileSys) (pdf_dir : PyStr) :
    Except IngestError (List (PyStr × PyStr × PyStr)) :=
  match fs pdf_dir with
  | none => .error (.fileNotFound (pystr "PDF directory not found: " ++ pdf_dir))
  | some entries =>
      let pdf_files := entries.filter fun e => isPdfName e.1
      if pdf_files.isEmpty then
        .error (.valueError (pystr "No PDF files found in " ++ pdf_dir))
      else
        .ok (pdf_files.map fun e => (e.1, e.2, extract_lead_name e.2 e.1))

/-- Source `chunk_documents`: split each text and tag every chunk with
`lead_name`, `source_pdf` and `chunk_id = "<stem>_<ordinal>"`. -/
def chunk_documents (loaded : List (PyStr × PyStr × PyStr)) : List Doc :=
  loaded.flatMap fun fd =>
    (split_text fd.2.1).enum.map fun ic =>
      { page_content := ic.2
        metaLead := some fd.2.2
        metaSource := some fd.1
        metaChunkId := some (pyStem fd.1 ++ pystr "_" ++ natToStr ic.1) }

/-- The persistent `"sales_leads"` collection: `none` when absent. -/
abbrev VStore := Option (List Doc)

/-- Source `add_documents_to_vectorstore`: delete any existing collection,
then insert the new chunk set — the resulting collection holds exactly the
documents passed in, whatever was stored before. -/
def add_documents_to_vectorstore (documents : List Doc) (st : VStore) : VStore :=
  match st with
  | some _ => some documents
  | none => some documents

/-- The collection's `count()` (empty when the store is absent). -/
def storeCount (st : VStore) : Nat :=
  match st with
  | some docs => docs.length
  | none => 0

/-- Source `ingest_pdfs`: load, chunk, store; returns the number of chunks
stored alongside the new store state.  Errors from `load_pdfs` propagate. -/
def ingest_pdfs (fs : FileSys) (pdf_dir : PyStr) (st : VStore) :
    Except IngestError (Nat × VStore) :=
  match load_pdfs fs pdf_dir with
  | .error e => .error e
  | .ok loaded =>
      let chunks := chunk_documents loaded
      .ok (chunks.length, add_documents_to_vectorstore chunks st)

/-! ## Concrete instances used by the witnesses -/

instance exceptDecEq {ε α : Type} [DecidableEq ε] [DecidableEq α] :
    DecidableEq (Except ε α) := fun a b =>
  match a, b with
  | .error e, .error f =>
      if h : e = f then .isTrue (by rw [h]) else .isFalse (by simp [h])
  | .error _, .ok _ => .isFalse (by simp)
  | .ok _, .error _ => .isFalse (by simp)
  | .ok x, .ok y =>
      if h : x = y then .isTrue (by rw [h]) else .isFalse (by simp [h])

/-- A concrete stand-in for the MD5 digest, used only to instantiate the
abstract hash when a witness needs a closed term. -/
def demoHash (s : PyStr) : Nat := s.foldl (fun a c => a * 131 + c.toNat) 7

/-- A concrete `PyRandom` implementation (a small linear congruential
stream), used only to instantiate the abstract generator in witnesses. -/
def demoRandom : PyRandom where
  RState := Nat
  init := fun seed => seed
  choiceIdx := fun st n => (st % (n + 3), st / 3 + 17)
  randraw := fun st a b => (st + a + b, st * 7 + 1)

/-- A one-directory, one-PDF filesystem for the ingestion witnesses. -/
def demoFS : FileSys := fun d =>
  if d = pystr "./data/pdfs" then
    some [(pystr "sarah_johnson.pdf", pystr "Lead: Sarah Johnson\nBudget approved.")]
  else none

/-- A filesystem whose directory exists but holds no PDF files. -/
def demoEmptyFS : FileSys := fun d =>
  if d = pystr "./data/pdfs" then some [(pystr "notes.txt", pystr "hello")] else none

/-- The single chunk document the demo ingestion stores. -/
def demoDoc : Doc :=
  { page_content := pystr "Lead: Sarah Johnson\nBudget approved."
    metaLead := some (pystr "Sarah Johnson")
    metaSource := some (pystr "sarah_johnson.pdf")
    metaChunkId := some (pystr "sarah_johnson_0") }

/-- A well-formed ranked list in the output format the system prompt
mandates: numbered entries, name, explicit `Score:` field, bullet reasons. -/
def sampleRankedOutput : PyStr :=
  pystr "1. Sarah Johnson - Score: 92\n- Budget approved\n2. Emma Wilson - Score: 85\n- CRO authority\n3. David Park - Score: 30\n- Funds frozen\n"

/-- The entry parsed from `"1. Alice - Score: 150"`: the out-of-range score
clamps to 100. -/
def oversizeLead : LeadScore :=
  { rank := 1, name := pystr "Alice", score := 100, reasoning := [], raw := [] }

/-- The entry parsed from `"1. Bob: maybe interested"`: only the fallback
pattern matches, so the score defaults to 70. -/
def fallback70Lead : LeadScore :=
  { rank := 1, name := pystr "Bob", score := 70, reasoning := [],
    raw := pystr "maybe interested" }

/-! ## Helper lemmas -/

theorem pyContains_iff (hay needle : PyStr) :
    pyContains hay needle = true ↔ needle <:+: hay := by
  induction hay with
  | nil =>
    rw [List.infix_nil]
    cases needle <;> simp [pyContains, List.isPrefixOf]
  | cons c rest ih =>
    rw [List.infix_cons_iff]
    simp [pyContains, ih, List.isPrefixOf_iff_prefix]

theorem pyChoice_mem (l : List PyStr) (i : Nat) (h : l ≠ []) : pyChoice l i ∈ l := by
  have hl : 0 < l.length := List.length_pos.mpr h
  have hm : i % l.length < l.length := Nat.mod_lt _ hl
  unfold pyChoice
  rw [List.getD_eq_getElem l [] hm]
  exact List.getElem_mem hm

theorem splitPoint_ge (cs : List Char) : CHUNK_OVERLAP + 1 ≤ splitPoint cs :=
  Nat.le_min.mpr ⟨by norm_num [CHUNK_SIZE, CHUNK_OVERLAP], Nat.le_max_left _ _⟩

theorem mkChunksF_drop_flatten (fuel : Nat) : ∀ cs : List Char,
    ((mkChunksF fuel cs).map (List.drop CHUNK_OVERLAP)).flatten =
      cs.drop CHUNK_OVERLAP := by
  induction fuel with
  | zero => intro cs; simp [mkChunksF]
  | succ fuel ih =>
    intro cs
    by_cases h : cs.length ≤ CHUNK_SIZE
    · simp [mkChunksF, h]
    · simp only [mkChunksF, if_neg h, List.map_cons, List.flatten_cons, ih]
      have e1 : List.drop CHUNK_OVERLAP (List.take (splitPoint cs) cs)
          = List.take (splitPoint cs - CHUNK_OVERLAP) (List.drop CHUNK_OVERLAP cs) :=
        List.drop_take _ _ _
      have e2 : List.drop CHUNK_OVERLAP (List.drop (splitPoint cs - CHUNK_OVERLAP) cs)
          = List.drop (splitPoint cs - CHUNK_OVERLAP) (List.drop CHUNK_OVERLAP cs) := by
        rw [List.drop_drop, List.drop_drop]
        congr 1
        omega
      rw [e1, e2, List.take_append_drop]

theorem mkChunksF_reconstruct (fuel : Nat) (cs : List Char) :
    reconstructOverlap (mkChunksF fuel cs) = cs := by
  cases fuel with
  | zero => simp [mkChunksF, reconstructOverlap]
  | succ f =>
    by_cases h : cs.length ≤ CHUNK_SIZE
    · simp [mkChunksF, h, reconstructOverlap]
    · simp only [mkChunksF, if_neg h, reconstructOverlap, mkChunksF_drop_flatten]
      rw [List.drop_drop]
      have hp := splitPoint_ge cs
      have ho : CHUNK_OVERLAP = 100 := rfl
      have hq : splitPoint cs - CHUNK_OVERLAP + CHUNK_OVERLAP = splitPoint cs := by omega
      rw [hq, List.take_append_drop]

/-! ## Claim theorems -/

/-- C8: the decision-maker predicate holds for a title exactly when some
keyword of the fixed authority-keyword set occurs as a substring of the
lowercased title; `"Chief Revenue Officer"` is a decision maker,
`"Business Development Manager"` is not, and `"manager"` alone is not in
the keyword set. -/
theorem is_decision_maker_keyword_characterization :
    (∀ t : PyStr, _is_decision_maker t = true ↔
      ∃ w ∈ DECISION_MAKER_TITLES, w <:+: pyLower t) ∧
    _is_decision_maker (pystr "Chief Revenue Officer") = true ∧
    _is_decision_maker (pystr "Business Development Manager") = false ∧
    pystr "manager" ∉ DECISION_MAKER_TITLES := by
  refine ⟨fun t => ?_, by decide, by decide, by decide⟩
  unfold _is_decision_maker
  rw [List.any_eq_true]
  constructor
  · rintro ⟨w, hw, hc⟩
    exact ⟨w, hw, (pyContains_iff _ _).mp hc⟩
  · rintro ⟨w, hw, hc⟩
    exact ⟨w, hw, (pyContains_iff _ _).mpr hc⟩

/-- C10: whatever the hash and generator implementations do, the seniority
of every generated profile is one of `"C-Suite"`, `"Senior Leadership"`,
`"Mid-Level Management"`; `"Individual Contributor"` is unreachable because
every title in the 13-element pool carries a seniority keyword. -/
theorem seniority_never_individual_contributor (md5int : PyStr → Nat)
    (R : PyRandom) (N : PyStr) :
    (lookup_linkedin_profile md5int R N).seniority ∈
      [pystr "C-Suite", pystr "Senior Leadership", pystr "Mid-Level Management"] ∧
    (lookup_linkedin_profile md5int R N).seniority ≠ pystr "Individual Contributor" := by
  have key : ∀ t ∈ JOB_TITLES,
      seniorityOf t ∈
        [pystr "C-Suite", pystr "Senior Leadership", pystr "Mid-Level Management"] ∧
      seniorityOf t ≠ pystr "Individual Contributor" := by decide
  exact key _ (pyChoice_mem JOB_TITLES _ (by decide))

/-- C1: `lookup_linkedin_profile` is deterministic — two calls on the same
name yield identical profile dictionaries — because the seed is a stable
hash of the lowercased name: any two names with equal lowercasing get equal
values for all generated fields (job title, industry, company size,
seniority, years in role, connections, decision maker, source), for every
hash and generator implementation. -/
theorem lookup_profile_deterministic (md5int : PyStr → Nat) (R : PyRandom)
    (N M : PyStr) :
    lookup_linkedin_profile md5int R N = lookup_linkedin_profile md5int R N ∧
    (pyLower N = pyLower M →
      (lookup_linkedin_profile md5int R N).job_title =
        (lookup_linkedin_profile md5int R M).job_title ∧
      (lookup_linkedin_profile md5int R N).industry =
        (lookup_linkedin_profile md5int R M).industry ∧
      (lookup_linkedin_profile md5int R N).company_size =
        (lookup_linkedin_profile md5int R M).company_size ∧
      (lookup_linkedin_profile md5int R N).seniority =
        (lookup_linkedin_profile md5int R M).seniority ∧
      (lookup_linkedin_profile md5int R N).years_in_role =
        (lookup_linkedin_profile md5int R M).years_in_role ∧
      (lookup_linkedin_profile md5int R N).connections =
        (lookup_linkedin_profile md5int R M).connections ∧
      (lookup_linkedin_profile md5int R N).decision_maker =
        (lookup_linkedin_profile md5int R M).decision_maker ∧
      (lookup_linkedin_profile md5int R N).source =
        (lookup_linkedin_profile md5int R M).source) := by
  refine ⟨rfl, fun h => ?_⟩
  have hs : _seed_from_name md5int N = _seed_from_name md5int M := by
    unfold _seed_from_name
    rw [h]
  unfold lookup_linkedin_profile
  rw [hs]
  exact ⟨rfl, rfl, rfl, rfl, rfl, rfl, rfl, rfl⟩

/-- Witness for C1 at concrete inputs: two spellings of the same lowercased
name produce the same job title under concrete hash and generator
implementations. -/
theorem lookup_profile_deterministic_witness :
    pyLower (pystr "Sarah Johnson") = pyLower (pystr "sARAH jOHNSON") ∧
    (lookup_linkedin_profile demoHash demoRandom (pystr "Sarah Johnson")).job_title =
      (lookup_linkedin_profile demoHash demoRandom (pystr "sARAH jOHNSON")).job_title :=
  ⟨by decide,
   ((lookup_profile_deterministic demoHash demoRandom
      (pystr "Sarah Johnson") (pystr "sARAH jOHNSON")).2 (by decide)).1⟩

/-- C3: for every input text, concatenating the chunk texts produced by the
(spec-modelled) chunker with the overlapping portions removed reconstructs
the original text losslessly in sequence. -/
theorem chunking_reconstructs_text (text : PyStr) :
    reconstructOverlap (split_text text) = text :=
  mkChunksF_reconstruct text.length text

theorem groupInsert_ne_nil (acc : List (PyStr × List PyStr)) (k v : PyStr) :
    groupInsert acc k v ≠ [] := by
  cases acc with
  | nil => simp [groupInsert]
  | cons g rest =>
    simp only [groupInsert]
    split <;> simp

theorem foldl_groupInsert_ne_nil (ds : List Doc) :
    ∀ acc, acc ≠ [] →
      ds.foldl (fun acc d => groupInsert acc (d.metaLead.getD (pystr "Unknown"))
        (pyStrip d.page_content)) acc ≠ [] := by
  induction ds with
  | nil => intro acc h; simpa using h
  | cons d rest ih =>
    intro acc _
    rw [List.foldl_cons]
    exact ih _ (groupInsert_ne_nil _ _ _)

theorem pyJoin_ne_nil (sep x : PyStr) (xs : List PyStr) (h : x ≠ []) :
    pyJoin sep (x :: xs) ≠ [] := by
  cases xs with
  | nil => simpa [pyJoin] using h
  | cons y ys => simp [pyJoin, h]

theorem format_context_ne_nil (d : Doc) (ds : List Doc) :
    format_context_for_prompt (d :: ds) ≠ [] := by
  unfold format_context_for_prompt
  have hg : (d :: ds).foldl (fun acc d => groupInsert acc
      (d.metaLead.getD (pystr "Unknown")) (pyStrip d.page_content)) [] ≠ [] := by
    rw [List.foldl_cons]
    exact foldl_groupInsert_ne_nil ds _ (groupInsert_ne_nil _ _ _)
  obtain ⟨g, gs, hgs⟩ := List.exists_cons_of_ne_nil hg
  rw [hgs]
  simp only [List.flatMap_cons, List.cons_append]
  exact pyJoin_ne_nil _ _ _ (by simp [pystr])

/-- C2 counterexample: `format_context_for_prompt` applied to the empty
chunk sequence returns the empty string, not the "no data found" sentinel. -/
theorem format_context_empty_returns_empty_string :
    format_context_for_prompt [] = ([] : PyStr) ∧
    format_context_for_prompt [] ≠ noDataSentinel := by decide

/-- C2 amended: the formatter itself returns the empty string on empty
input; the documented "no data found" sentinel is produced one level up, by
the retrieval tool, which checks for an empty result before invoking the
formatter — so the tool's observation is never the empty string, and is
exactly the sentinel when retrieval returns no chunks. -/
theorem no_data_sentinel_at_tool_boundary (retrieval : Except PyStr (List Doc)) :
    vector_search_tool_fn retrieval ≠ [] ∧
    (retrieval = .ok [] → vector_search_tool_fn retrieval = noDataSentinel) ∧
    format_context_for_prompt [] = ([] : PyStr) := by
  refine ⟨?_, fun h => by rw [h]; rfl, rfl⟩
  cases retrieval with
  | error e => simp [vector_search_tool_fn, pystr]
  | ok docs =>
    cases docs with
    | nil => decide
    | cons d ds =>
      simpa [vector_search_tool_fn] using format_context_ne_nil d ds

/-- Witness for C2 at the concrete empty retrieval result. -/
theorem no_data_sentinel_at_tool_boundary_witness :
    vector_search_tool_fn (.ok []) = noDataSentinel ∧
    vector_search_tool_fn (.ok []) ≠ [] :=
  ⟨(no_data_sentinel_at_tool_boundary (.ok [])).2.1 rfl,
   (no_data_sentinel_at_tool_boundary (.ok [])).1⟩

/-- C9 counterexample: an exception raised by the enrichment callee
propagates out of `linkedin_search_tool_fn` unchanged — the body has no
handler, so nothing converts it into a failure-observation string. -/
theorem linkedin_tool_propagates_exception :
    linkedin_search_tool_fn (fun _ => .error (pystr "boom")) (pystr "Sarah Johnson")
      = .error (pystr "boom") := by decide

/-- C9 amended: only the retrieval tool catches at its boundary, converting
any exception of its body into `"Vector search failed: <message>"`; the
enrichment tool propagates any exception of its callee unchanged, and with
the shipped pure simulator its body never throws, so every invocation
returns normally. -/
theorem tool_boundary_error_handling :
    (∀ e : PyStr,
      vector_search_tool_fn (.error e) = pystr "Vector search failed: " ++ e) ∧
    (∀ (impl : PyStr → Except PyStr LinkedInProfile) (name err : PyStr),
      impl (pyStripChars ['\''] (pyStripChars ['"'] (pyStrip name))) = .error err →
      (pyStripChars ['\''] (pyStripChars ['"'] (pyStrip name))).isEmpty = false →
      linkedin_search_tool_fn impl name = .error err) ∧
    (∀ (md5int : PyStr → Nat) (R : PyRandom) (name : PyStr),
      ∃ out : PyStr,
        linkedin_search_tool_fn (fun x => .ok (lookup_linkedin_profile md5int R x))
          name = .ok out) := by
  refine ⟨fun e => rfl, fun impl name err h1 h2 => ?_, fun m R name => ?_⟩
  · unfold linkedin_search_tool_fn
    simp only [h2, Bool.false_eq_true, if_false, h1]
    rfl
  · unfold linkedin_search_tool_fn
    dsimp only
    split
    · exact ⟨_, rfl⟩
    · exact ⟨_, rfl⟩

/-- Witness for C9's amended claim at concrete failing collaborators. -/
theorem tool_boundary_error_handling_witness :
    vector_search_tool_fn (.error (pystr "db down")) =
      pystr "Vector search failed: " ++ pystr "db down" ∧
    linkedin_search_tool_fn (fun _ => .error (pystr "rate limited"))
      (pystr " Emma Wilson ") = .error (pystr "rate limited") :=
  ⟨tool_boundary_error_handling.1 _,
   tool_boundary_error_handling.2.1 _ _ _ (by decide) (by decide)⟩

theorem add_documents_eq (docs : List Doc) (st : VStore) :
    add_documents_to_vectorstore docs st = some docs := by
  cases st <;> rfl

/-- C4: ingestion fails with the file-not-found error exactly when the
directory is missing, with the empty-corpus (`ValueError`) error exactly
when the directory exists but holds no eligible (`*.pdf`) documents, and in
every remaining case returns exactly the number of chunks stored. -/
theorem ingest_error_classification (fs : FileSys) (dir : PyStr) (st : VStore) :
    ((∃ m, ingest_pdfs fs dir st = .error (.fileNotFound m)) ↔ fs dir = none) ∧
    ((∃ m, ingest_pdfs fs dir st = .error (.valueError m)) ↔
      ∃ entries, fs dir = some entries ∧
        entries.filter (fun e => isPdfName e.1) = []) ∧
    (∀ n st2, ingest_pdfs fs dir st = .ok (n, st2) → storeCount st2 = n) ∧
    (∀ entries, fs dir = some entries →
      entries.filter (fun e => isPdfName e.1) ≠ [] →
      ∃ n st2, ingest_pdfs fs dir st = .ok (n, st2)) := by
  cases hfs : fs dir with
  | none =>
    have hrun : ingest_pdfs fs dir st =
        .error (.fileNotFound (pystr "PDF directory not found: " ++ dir)) := by
      simp [ingest_pdfs, load_pdfs, hfs]
    refine ⟨⟨fun _ => rfl, fun _ => ⟨_, hrun⟩⟩, ⟨?_, ?_⟩, ?_, ?_⟩
    · rintro ⟨m, hm⟩
      rw [hrun] at hm
      simp at hm
    · rintro ⟨entries, he, -⟩
      exact Option.noConfusion he
    · intro n st2 h
      rw [hrun] at h
      simp at h
    · intro entries he
      exact Option.noConfusion he
  | some entries =>
    by_cases hpdf : entries.filter (fun e => isPdfName e.1) = []
    · have hrun : ingest_pdfs fs dir st =
          .error (.valueError (pystr "No PDF files found in " ++ dir)) := by
        simp [ingest_pdfs, load_pdfs, hfs, hpdf]
      refine ⟨⟨?_, ?_⟩, ⟨fun _ => ⟨entries, rfl, hpdf⟩, fun _ => ⟨_, hrun⟩⟩, ?_, ?_⟩
      · rintro ⟨m, hm⟩
        rw [hrun] at hm
        simp at hm
      · intro he
        exact Option.noConfusion he
      · intro n st2 h
        rw [hrun] at h
        simp at h
      · intro entries2 he2 hne2
        injection he2 with he2
        subst he2
        exact absurd hpdf hne2
    · have hempty : (entries.filter fun e => isPdfName e.1).isEmpty = false := by
        simpa [List.isEmpty_iff] using hpdf
      have hrun : ingest_pdfs fs dir st =
          .ok ((chunk_documents ((entries.filter fun e => isPdfName e.1).map
                fun e => (e.1, e.2, extract_lead_name e.2 e.1))).length,
              add_documents_to_vectorstore
                (chunk_documents ((entries.filter fun e => isPdfName e.1).map
                  fun e => (e.1, e.2, extract_lead_name e.2 e.1))) st) := by
        simp [ingest_pdfs, load_pdfs, hfs, hempty]
      refine ⟨⟨?_, ?_⟩, ⟨?_, ?_⟩, ?_, ?_⟩
      · rintro ⟨m, hm⟩
        rw [hrun] at hm
        simp at hm
      · intro he
        exact Option.noConfusion he
      · rintro ⟨m, hm⟩
        rw [hrun] at hm
        simp at hm
      · rintro ⟨entries2, he2, hf2⟩
        injection he2 with he2
        subst he2
        exact absurd hf2 hpdf
      · intro n st2 h
        rw [hrun] at h
        simp only [Except.ok.injEq, Prod.mk.injEq] at h
        rw [← h.2, ← h.1, add_documents_eq]
        rfl
      · intro entries2 he2 hne2
        exact ⟨_, _, hrun⟩

/-- Witness for C4: a directory with no PDFs yields the empty-corpus error,
and a successful demo ingestion stores exactly the returned chunk count. -/
theorem ingest_error_classification_witness :
    (∃ m, ingest_pdfs demoEmptyFS (pystr "./data/pdfs") none =
      .error (.valueError m)) ∧
    storeCount (some [demoDoc]) = 1 :=
  ⟨(ingest_error_classification demoEmptyFS (pystr "./data/pdfs") none).2.1.mpr
     ⟨_, rfl, by decide⟩,
   (ingest_error_classification demoFS (pystr "./data/pdfs") none).2.2.1 1
     (some [demoDoc]) (by decide)⟩

/-- C5: a successful ingestion fully replaces the collection — re-ingesting
the same directory from the resulting state returns the same chunk count and
leaves the state fixed, the stored count equals the returned count, and an
ingestion of the same corpus from any state yields that same count: repeated
ingestion never accumulates chunks beyond a single run's count. -/
theorem ingest_idempotent_full_replace (fs : FileSys) (dir : PyStr) (st : VStore)
    (n : Nat) (st1 : VStore) (h : ingest_pdfs fs dir st = .ok (n, st1)) :
    ingest_pdfs fs dir st1 = .ok (n, st1) ∧
    storeCount st1 = n ∧
    ∀ st2, ∃ st3, ingest_pdfs fs dir st2 = .ok (n, st3) ∧ storeCount st3 = n := by
  unfold ingest_pdfs at h ⊢
  cases hl : load_pdfs fs dir with
  | error e =>
    rw [hl] at h
    simp at h
  | ok loaded =>
    rw [hl] at h
    dsimp only at h ⊢
    simp only [add_documents_eq] at h ⊢
    simp only [Except.ok.injEq, Prod.mk.injEq] at h
    obtain ⟨hn, hst⟩ := h
    refine ⟨?_, ?_, fun st2 => ⟨some (chunk_documents loaded), ?_, ?_⟩⟩
    · rw [hn, hst]
    · rw [← hst, ← hn]
      rfl
    · rw [hn]
    · rw [← hn]
      rfl

/-- Witness for C5 at the demo corpus: re-ingesting from the stored state
reproduces count 1 and the same state. -/
theorem ingest_idempotent_full_replace_witness :
    ingest_pdfs demoFS (pystr "./data/pdfs") (some [demoDoc]) =
      .ok (1, some [demoDoc]) ∧
    storeCount (some [demoDoc]) = 1 :=
  ⟨(ingest_idempotent_full_replace demoFS (pystr "./data/pdfs") none 1
      (some [demoDoc]) (by decide)).1,
   (ingest_idempotent_full_replace demoFS (pystr "./data/pdfs") none 1
      (some [demoDoc]) (by decide)).2.1⟩

theorem pyClamp_bounds (x : Int) : 0 ≤ pyClamp x ∧ pyClamp x ≤ 100 := by
  unfold pyClamp
  constructor
  · exact le_min (le_max_right x 0) (by norm_num)
  · exact min_le_right _ _

theorem buildLeads_score (s : PyStr) (b : Bool) (ms : List RMatch) :
    ∀ l ∈ buildLeads s b ms,
      (0 ≤ l.score ∧ l.score ≤ 100) ∧ (b = false → l.score = 70) := by
  induction ms with
  | nil =>
    intro l hl
    simp [buildLeads] at hl
  | cons m rest ih =>
    intro l hl
    simp only [buildLeads] at hl
    rcases List.mem_cons.mp hl with h | h
    · subst h
      refine ⟨pyClamp_bounds _, fun hb => ?_⟩
      subst hb
      rfl
    · exact ih l h

set_option maxRecDepth 100000 in
/-- C6: `parse_lead_scores` is a total function — on a well-formed numbered
list with explicit `Score:` fields it recovers the exact rank/name/score
triples of the list, and on any text where neither the primary nor the
fallback pattern matches it returns the empty sequence. -/
theorem parse_lead_scores_recovers_triples :
    ((parse_lead_scores sampleRankedOutput).map (fun l => (l.rank, l.name, l.score)) =
      [(1, pystr "Sarah Johnson", 92), (2, pystr "Emma Wilson", 85),
       (3, pystr "David Park", 30)]) ∧
    (∀ s : PyStr, finditer primaryRE s = [] → finditer fallbackRE s = [] →
      parse_lead_scores s = []) := by
  refine ⟨by decide, fun s h1 h2 => ?_⟩
  unfold parse_lead_scores
  dsimp only
  rw [h1, h2]
  simp [buildLeads]

/-- Witness for C6's no-match case at a concrete patternless text. -/
theorem parse_lead_scores_recovers_triples_witness :
    parse_lead_scores (pystr "no leads were identified") = [] :=
  parse_lead_scores_recovers_triples.2 (pystr "no leads were identified")
    (by decide) (by decide)

/-- C7: every score in the output of `parse_lead_scores` lies in `[0, 100]`;
the clamp sends 150 to 100 and -5 to 0; and when only the fallback pattern
matches (no explicit score field), every entry gets the fixed neutral
score 70. -/
theorem parse_lead_scores_clamped :
    (∀ s : PyStr, ∀ l ∈ parse_lead_scores s, 0 ≤ l.score ∧ l.score ≤ 100) ∧
    pyClamp 150 = 100 ∧
    pyClamp (-5) = 0 ∧
    (∀ s : PyStr, finditer primaryRE s = [] →
      ∀ l ∈ parse_lead_scores s, l.score = 70) := by
  refine ⟨fun s l hl => ?_, by decide, by decide, fun s hp l hl => ?_⟩
  · unfold parse_lead_scores at hl
    dsimp only at hl
    split at hl
    · exact (buildLeads_score _ _ _ l hl).1
    · exact (buildLeads_score _ _ _ l hl).1
  · unfold parse_lead_scores at hl
    dsimp only at hl
    rw [hp] at hl
    simp only [List.isEmpty_nil, if_true] at hl
    exact (buildLeads_score _ _ _ l hl).2 rfl

/-- Witness for C7 at concrete inputs: the 150-scored entry comes out
clamped to 100, and a fallback-only entry carries score 70. -/
theorem parse_lead_scores_clamped_witness :
    (0 ≤ oversizeLead.score ∧ oversizeLead.score ≤ 100) ∧
    fallback70Lead.score = 70 :=
  ⟨parse_lead_scores_clamped.1 (pystr "1. Alice - Score: 150") oversizeLead
     (by decide),
   parse_lead_scores_clamped.2.2.2 (pystr "1. Bob: maybe interested") (by decide)
     fallback70Lead (by decide)⟩

/-- Witness for C8 at the two concrete example titles. -/
theorem is_decision_maker_keyword_characterization_witness :
    _is_decision_maker (pystr "Chief Revenue Officer") = true ∧
    _is_decision_maker (pystr "Business Development Manager") = false :=
  ⟨is_decision_maker_keyword_characterization.2.1,
   is_decision_maker_keyword_characterization.2.2.1⟩

/-- Witness for C10 at a concrete name and concrete implementations. -/
theorem seniority_never_individual_contributor_witness :
    (lookup_linkedin_profile demoHash demoRandom (pystr "Nina Patel")).seniority ≠
      pystr "Individual Contributor" :=
  (seniority_never_individual_contributor demoHash demoRandom (pystr "Nina Patel")).2

/-- Witness for C3 at a concrete text. -/
theorem chunking_reconstructs_text_witness :
    reconstructOverlap (split_text (pystr "hello world")) = pystr "hello world" :=
  chunking_reconstructs_text (pystr "hello world")
